import Mathlib

/-!
Verification development for the ECDD session-orchestration core
(Parth18062003/ECDD).  The definitions below are a shallow embedding of the
Python sources:

  * `src/schemas.py`      — enums and data models,
  * `src/session.py`      — `ECDDSessionManager` (the session store),
  * `src/agents.py`       — `ECDDAgentCoordinator`,
  * `src/reporter_agent.py`      — `ReporterValidatorAgent`,
  * `src/questionnaire_agent.py` — `QuestionnaireGeneratorAgent`,
  * `src/updated_app.py`  — `safe_json_from_llm`.

Modelling conventions, used uniformly:

  * Python `dict`s are association lists (`PyDict`).  Assignment updates an
    existing key in place (preserving its position) and appends fresh keys,
    exactly like CPython dicts; `{**a, **b}` is `dictUpdate a b`.
  * Remote services (the Azure generative back-ends) are parameters: a call
    is a function argument, and the raw textual answer of a call is data.
  * JSON decoding by Python's `json` module is abstracted: a fenced block
    either decodes to a record of exactly the keys the source reads
    (each `dict.get` becomes an `Option` field) or fails to decode (`none`,
    the `json.JSONDecodeError` branch).
  * A Python `raise` is an `Except.error`; functions that catch all
    exceptions internally have plain result types.
  * `float` fields carry `ℚ`.  The embedded code only constructs and copies
    these values (`0.5`, `0.8`, `0.95`, and the poll delays, all exactly
    representable in binary floating point and summed well inside 53 bits),
    so rational arithmetic agrees with the Python float arithmetic here.
  * Timestamps (`datetime.now(...).isoformat()`) and `uuid.uuid4()` are
    nondeterministic inputs; they are passed in as explicit arguments.
  * Fields of the Python models that none of the embedded operations read
    or write (pure presentation metadata) are omitted; every omission is a
    field the sources never consult in the code under verification.
-/
/-! ## Python dictionaries as ordered association lists -/
/-- A Python `dict` with `String` keys, modelled as an ordered association
list: CPython dicts preserve insertion order. -/
def PyDict (α : Type) : Type := List (String × α)

instance (α : Type) [DecidableEq α] : DecidableEq (PyDict α) :=
  inferInstanceAs (DecidableEq (List (String × α)))

/-- Lookup, `d.get(k)` / `d[k]`. -/
def dictGet {α : Type} : PyDict α → String → Option α
  | [], _ => none
  | kv :: tl, k => if k = kv.1 then some kv.2 else dictGet tl k

/-- Assignment `d[k] = v`: replaces the value of an existing key in place
(keeping its position) and appends a fresh key at the end, the CPython dict
semantics. -/
def dictInsert {α : Type} : PyDict α → String → α → PyDict α
  | [], k, v => [(k, v)]
  | kv :: tl, k, v => if kv.1 = k then (k, v) :: tl else kv :: dictInsert tl k v

/-- The Python merge `{**p, **c}`: start from `p`, then assign every binding
of `c` in order, so bindings of `c` win on key collision. -/
def dictUpdate {α : Type} (p c : PyDict α) : PyDict α :=
  List.foldl (fun d kv => dictInsert d kv.1 kv.2) p c

/-- Python truthiness of a dict: empty dicts are falsy (`p or {}`). -/
def dictTruthy {α : Type} (d : PyDict α) : Bool :=
  !(List.isEmpty d)

/-- The keys of a dict, in order. -/
def dictKeys {α : Type} (d : PyDict α) : List String :=
  List.map Prod.fst d

/-- Python truthiness of a string: empty strings are falsy. -/
def strTruthy (s : String) : Bool :=
  !(String.isEmpty s)

/-- Python truthiness of an `Optional[str]`: `None` and `""` are falsy. -/
def optStrTruthy : Option String → Bool
  | none => false
  | some s => strTruthy s

/-! ## Enums (`src/schemas.py`) -/
/-- Models `SessionStatus` of `schemas.py`: the session lifecycle states. -/
inductive SessionStatus where
  | pending
  | questionnaire_generated
  | in_progress
  | responses_submitted
  | reports_generated
  | pending_review
  | approved
  | escalated
  | rejected
  | error
deriving DecidableEq

/-- Models `RiskLevel` of `schemas.py`. -/
inductive RiskLevel where
  | low
  | medium
  | high
  | critical
deriving DecidableEq

/-- Models `RiskLevel(value)`: Python enum construction from a string; `none` models
the `ValueError` raised on an unknown value. -/
def RiskLevel.ofString : String → Option RiskLevel
  | "low" => some .low
  | "medium" => some .medium
  | "high" => some .high
  | "critical" => some .critical
  | _ => none

/-- Models `DocumentPriority` of `schemas.py`. -/
inductive DocumentPriority where
  | required
  | recommended
  | optional
deriving DecidableEq

/-- Models `DocumentPriority(value)`; `none` models the `ValueError` on an unknown
value. -/
def DocumentPriority.ofString : String → Option DocumentPriority
  | "required" => some .required
  | "recommended" => some .recommended
  | "optional" => some .optional
  | _ => none

/-- Models `QuestionType` of `schemas.py`. -/
inductive QuestionType where
  | text
  | textarea
  | dropdown
  | multiple_choice
  | checkbox
  | date
  | number
  | currency
  | yes_no
deriving DecidableEq

/-- Models `QuestionType(value)`; `none` models the `ValueError` on an unknown
value. -/
def QuestionType.ofString : String → Option QuestionType
  | "text" => some .text
  | "textarea" => some .textarea
  | "dropdown" => some .dropdown
  | "multiple_choice" => some .multiple_choice
  | "checkbox" => some .checkbox
  | "date" => some .date
  | "number" => some .number
  | "currency" => some .currency
  | "yes_no" => some .yes_no
  | _ => none

/-! ## Data models (`src/schemas.py`) -/
/-- A questionnaire answer value (`Dict[str, Any]` values in `responses`);
the embedded operations only store and compare these. -/
inductive PyVal where
  | str (s : String)
  | int (n : ℤ)
  | bool (b : Bool)
deriving DecidableEq

/-- Models `PEPStatus` of `schemas.py`; only `is_pep` is consulted by the embedded
operations, the descriptive metadata fields are never read. -/
structure PEPStatus where
  is_pep : Bool := false
deriving DecidableEq

/-- Models `SanctionHit` of `schemas.py`; the embedded operations only take the
length of the sanctions list, the metadata fields are never read. -/
structure SanctionHit where
  list_name : Option String := none
deriving DecidableEq

/-- Models `AdverseNewsItem` of `schemas.py`; the embedded operations only take the
length of the adverse-news list, the metadata fields are never read. -/
structure AdverseNewsItem where
  headline : Option String := none
deriving DecidableEq

/-- Models `ClientProfile` of `schemas.py`, restricted to the fields the embedded
operations read (`customer_id`, `customer_name` and the three screening
lists); identity/relationship/account fields are only interpolated into
prompt text. -/
structure ClientProfile where
  customer_id : String
  customer_name : String
  pep_status : List PEPStatus := []
  sanctions : List SanctionHit := []
  adverse_news : List AdverseNewsItem := []
deriving DecidableEq

/-- Models `any(p.is_pep for p in client_profile.pep_status)` guarded by
`client_profile.pep_status` being truthy (non-empty), the exact test used in
`reporter_agent.py`. -/
def profileHasPepHit (p : ClientProfile) : Bool :=
  !(List.isEmpty p.pep_status) && List.any p.pep_status (fun s => s.is_pep)

/-- Models `ComplianceFlags` of `schemas.py`: the fixed eight boolean screening
flags, each defaulting to `False`. -/
structure ComplianceFlags where
  pep : Bool := false
  sanctions : Bool := false
  adverse_media : Bool := false
  high_risk_jurisdiction : Bool := false
  watchlist_hit : Bool := false
  source_of_wealth_concerns : Bool := false
  source_of_funds_concerns : Bool := false
  complex_ownership : Bool := false
deriving DecidableEq

/-- Models `ComplianceFlags.model_dump()`: the field-name/value pairs in declared
field order (the iteration order of `.items()` in `compare_assessments`). -/
def ComplianceFlags.model_dump (f : ComplianceFlags) : List (String × Bool) :=
  [("pep", f.pep),
   ("sanctions", f.sanctions),
   ("adverse_media", f.adverse_media),
   ("high_risk_jurisdiction", f.high_risk_jurisdiction),
   ("watchlist_hit", f.watchlist_hit),
   ("source_of_wealth_concerns", f.source_of_wealth_concerns),
   ("source_of_funds_concerns", f.source_of_funds_concerns),
   ("complex_ownership", f.complex_ownership)]

/-- Models `RiskFactor` of `schemas.py`. -/
structure RiskFactor where
  factor_name : String
  level : RiskLevel := .medium
  score : ℚ := 0
  justification : String := ""
deriving DecidableEq

/-- Models `ECDDAssessment` of `schemas.py` (the `assessed_by`/`assessed_at`
metadata and the free-form `source_of_wealth`/`source_of_funds` dicts are
never read by the embedded operations and are omitted). -/
structure ECDDAssessment where
  client_type : String := ""
  client_category : String := ""
  overall_risk_rating : RiskLevel := .medium
  risk_score : ℚ := 0
  risk_factors : List RiskFactor := []
  compliance_flags : ComplianceFlags := {}
  recommendations : List String := []
  required_actions : List String := []
  report_text : String := ""
deriving DecidableEq

/-- Models `DocumentItem` of `schemas.py`. -/
structure DocumentItem where
  document_name : String
  priority : DocumentPriority := .required
  category : String := ""
  acceptable_formats : List String := []
  special_instructions : String := ""
  status : String := "pending"
deriving DecidableEq

/-- Models `DocumentChecklist` of `schemas.py`. -/
structure DocumentChecklist where
  identity_documents : List DocumentItem := []
  source_of_wealth_documents : List DocumentItem := []
  source_of_funds_documents : List DocumentItem := []
  compliance_documents : List DocumentItem := []
  additional_documents : List DocumentItem := []
  checklist_text : String := ""
deriving DecidableEq

/-- Models `QuestionField` of `schemas.py`. -/
structure QuestionField where
  field_id : String
  question_text : String
  question_type : QuestionType := .text
  required : Bool := true
  help_text : String := ""
  options : List String := []
  placeholder : String := ""
  category : String := ""
  aml_relevant : Bool := false
deriving DecidableEq

/-- Models `QuestionSection` of `schemas.py`. -/
structure QuestionSection where
  section_id : String
  section_title : String
  section_description : String := ""
  section_icon : String := "📋"
  order : ℤ := 0
  questions : List QuestionField := []
deriving DecidableEq

/-- Models `DynamicQuestionnaire` of `schemas.py` (`created_at` is a timestamp
default, supplied by the caller in this embedding). -/
structure DynamicQuestionnaire where
  questionnaire_id : String
  customer_id : String
  customer_name : String
  created_at : String := ""
  sections : List QuestionSection := []
  client_type : String := ""
  profile_summary : PyDict Bool := []
deriving DecidableEq

/-- Models `QuestionnaireSession` of `schemas.py`.  The Python field
`client_profile` holds `client_profile.model_dump()` and every consumer
immediately rebuilds `ClientProfile(**session.client_profile)`; the pydantic
dump/reconstruct round trip is the identity for well-typed profiles, so the
field is modelled as the profile itself.  The agent thread-id fields are
never read by the embedded operations and are omitted. -/
structure QuestionnaireSession where
  session_id : String
  customer_id : String
  customer_name : String
  status : SessionStatus := .pending
  created_at : String := ""
  updated_at : String := ""
  client_profile : ClientProfile
  questionnaire : Option DynamicQuestionnaire := none
  responses : PyDict PyVal := []
  ecdd_assessment : Option ECDDAssessment := none
  document_checklist : Option DocumentChecklist := none
  review_decision : Option String := none
  review_notes : Option String := none
  reviewed_by : Option String := none
  reviewed_at : Option String := none
  is_followup : Bool := false
  parent_session_id : Option String := none
deriving DecidableEq

/-! ## The session store (`src/session.py`, `ECDDSessionManager`) -/
/-- The keyword arguments of `ECDDSessionManager.update_session`; `none`
models an omitted (default `None`) argument. -/
structure UpdateSessionArgs where
  status : Option SessionStatus := none
  responses : Option (PyDict PyVal) := none
  ecdd_assessment : Option ECDDAssessment := none
  document_checklist : Option DocumentChecklist := none
  review_decision : Option String := none
  review_notes : Option String := none
  reviewed_by : Option String := none
deriving DecidableEq

/-- Line 147-148, `if status: session.status = status`: an enum member is
always truthy, so a supplied status is assigned unconditionally — there is
no transition guard of any kind. -/
def applyStatusArg (s : QuestionnaireSession) (a : Option SessionStatus) :
    QuestionnaireSession :=
  match a with
  | some st => { s with status := st }
  | none => s

/-- Line 149-150, `if responses:`: an empty dict is falsy and is ignored. -/
def applyResponsesArg (s : QuestionnaireSession)
    (a : Option (PyDict PyVal)) : QuestionnaireSession :=
  match a with
  | some r => if dictTruthy r then { s with responses := r } else s
  | none => s

/-- Line 151-152, `if ecdd_assessment:`: a model object is always truthy. -/
def applyAssessmentArg (s : QuestionnaireSession)
    (a : Option ECDDAssessment) : QuestionnaireSession :=
  match a with
  | some x => { s with ecdd_assessment := some x }
  | none => s

/-- Line 153-154, `if document_checklist:`. -/
def applyChecklistArg (s : QuestionnaireSession)
    (a : Option DocumentChecklist) : QuestionnaireSession :=
  match a with
  | some x => { s with document_checklist := some x }
  | none => s

/-- Lines 155-157, `if review_decision:` — also stamps `reviewed_at`; the
empty string is falsy and is ignored. -/
def applyReviewDecisionArg (s : QuestionnaireSession) (a : Option String)
    (now : String) : QuestionnaireSession :=
  match a with
  | some d =>
    if strTruthy d then
      { s with review_decision := some d, reviewed_at := some now }
    else s
  | none => s

/-- Lines 158-159, `if review_notes:`. -/
def applyReviewNotesArg (s : QuestionnaireSession) (a : Option String) :
    QuestionnaireSession :=
  match a with
  | some n => if strTruthy n then { s with review_notes := some n } else s
  | none => s

/-- Lines 160-161, `if reviewed_by:`. -/
def applyReviewedByArg (s : QuestionnaireSession) (a : Option String) :
    QuestionnaireSession :=
  match a with
  | some r => if strTruthy r then { s with reviewed_by := some r } else s
  | none => s

/-- Models `ECDDSessionManager.update_session` (`session.py`, lines 112-171) over
the in-memory session map (`self._sessions`); the JSON-file persistence and
write-buffer bookkeeping move no session data and are not modelled.  Each
field update is the source's own truthiness-guarded assignment, applied in
source order, then `updated_at` is stamped.  Returns the updated session
(`None` when the id is unknown, after the warning log) together with the
new store. -/
def update_session (sessions : PyDict QuestionnaireSession)
    (session_id : String) (args : UpdateSessionArgs) (now : String) :
    Option QuestionnaireSession × PyDict QuestionnaireSession :=
  match dictGet sessions session_id with
  | none => (none, sessions)
  | some session =>
    let s :=
      applyReviewedByArg
        (applyReviewNotesArg
          (applyReviewDecisionArg
            (applyChecklistArg
              (applyAssessmentArg
                (applyResponsesArg
                  (applyStatusArg session args.status)
                  args.responses)
                args.ecdd_assessment)
              args.document_checklist)
            args.review_decision now)
          args.review_notes)
        args.reviewed_by
    let s := { s with updated_at := now }
    (some s, dictInsert sessions session_id s)

/-! ## The coordinator (`src/agents.py`, `ECDDAgentCoordinator`) -/
/-- The mutable state of `ECDDAgentCoordinator` that the embedded operations
touch: its session map, plus the reporter agent's session-to-thread map
(`ReporterValidatorAgent._threads`), the only other state a coordinator call
can change. -/
structure CoordState where
  sessions : PyDict QuestionnaireSession
  reporter_threads : PyDict String := []
deriving DecidableEq

/-- A reporter back-end for `generate_assessment`: from the client profile,
the formatted responses and the session id, produce the assessment and
checklist (`ReporterValidatorAgent.generate_assessment` never raises: every
failure path inside it returns the fallback pair). -/
def ReporterBackend : Type :=
  ClientProfile → PyDict PyVal → String → ECDDAssessment × DocumentChecklist

/-- Models `ECDDAgentCoordinator.submit_responses` (`agents.py`, lines 112-150):
store the responses, move to `RESPONSES_SUBMITTED`, call the reporter, then
store assessment and checklist and move to `REPORTS_GENERATED`.  The
`ValueError` for an unknown session id is `Except.error`.  `now` supplies
the `datetime.now` timestamps. -/
def submit_responses (st : CoordState) (session_id : String)
    (responses : PyDict PyVal) (reporter : ReporterBackend) (now : String) :
    Except String ((ECDDAssessment × DocumentChecklist) × CoordState) :=
  match dictGet st.sessions session_id with
  | none => Except.error ("Session " ++ session_id ++ " not found")
  | some session =>
    let s1 := { session with
                  responses := responses,
                  status := SessionStatus.responses_submitted,
                  updated_at := now }
    let (assessment, checklist) := reporter s1.client_profile responses session_id
    let s2 := { s1 with
                  ecdd_assessment := some assessment,
                  document_checklist := some checklist,
                  status := SessionStatus.reports_generated,
                  updated_at := now }
    Except.ok ((assessment, checklist),
      { st with sessions := dictInsert st.sessions session_id s2 })

/-- Models `ECDDAgentCoordinator.complete_review` (`agents.py`, lines 253-290):
record the review fields and map the decision string onto a terminal status;
any other decision string leaves the status untouched. -/
def complete_review (st : CoordState) (session_id : String)
    (decision : String) (notes reviewer reviewed_by : Option String)
    (now : String) :
    Except String (QuestionnaireSession × CoordState) :=
  match dictGet st.sessions session_id with
  | none => Except.error ("Session " ++ session_id ++ " not found")
  | some session =>
    let s := { session with
                 review_decision := some decision,
                 review_notes := notes,
                 reviewed_by := (reviewer.or reviewed_by),
                 reviewed_at := some now }
    let s :=
      if decision = "approved" then { s with status := SessionStatus.approved }
      else if decision = "rejected" then { s with status := SessionStatus.rejected }
      else if decision = "escalated" then { s with status := SessionStatus.escalated }
      else s
    let s := { s with updated_at := now }
    Except.ok (s, { st with sessions := dictInsert st.sessions session_id s })

/-- Models `ECDDAgentCoordinator.submit_followup_responses` (`agents.py`, lines
338-384): resolve the follow-up session and its parent, merge the parent's
responses with the follow-up responses (`{**parent, **responses}`, follow-up
wins), store the merge as the follow-up session's own responses, run the
reporter on the combined map, and record the results on the follow-up
session.  The `ValueError`s are `Except.error`. -/
def submit_followup_responses (st : CoordState)
    (followup_session_id : String) (responses : PyDict PyVal)
    (reporter : ReporterBackend) (now : String) :
    Except String ((ECDDAssessment × DocumentChecklist) × CoordState) :=
  match dictGet st.sessions followup_session_id with
  | none => Except.error ("Session " ++ followup_session_id ++ " not found")
  | some fs =>
    if !fs.is_followup || !optStrTruthy fs.parent_session_id then
      Except.error "This is not a follow-up session"
    else
      match dictGet st.sessions (fs.parent_session_id.getD "") with
      | none =>
        Except.error
          ("Parent session " ++ fs.parent_session_id.getD "" ++ " not found")
      | some parent_session =>
        let combined := dictUpdate
          (if dictTruthy parent_session.responses
           then parent_session.responses else [])
          responses
        let fs1 := { fs with responses := combined }
        let sessions1 := dictInsert st.sessions followup_session_id fs1
        let (assessment, checklist) :=
          reporter fs1.client_profile combined followup_session_id
        let fs2 := { fs1 with
                       ecdd_assessment := some assessment,
                       document_checklist := some checklist,
                       status := SessionStatus.reports_generated,
                       updated_at := now }
        Except.ok ((assessment, checklist),
          { st with sessions := dictInsert sessions1 followup_session_id fs2 })

/-- A reporter back-end for `answer_stakeholder_query`: from the session id,
the question, the profile, the assessment and the reporter's thread map,
produce the textual answer and the (possibly extended) thread map — the only
state `ReporterValidatorAgent.answer_stakeholder_query` can change. -/
def QueryBackend : Type :=
  String → String → ClientProfile → ECDDAssessment → PyDict String →
    String × PyDict String

/-- Models `ECDDAgentCoordinator.answer_query` (`agents.py`, lines 181-209): raise
for an unknown session; answer with the fixed not-yet-generated message when
the session has no assessment; otherwise delegate to the reporter agent. -/
def answer_query (st : CoordState) (session_id question : String)
    (backend : QueryBackend) : Except String (String × CoordState) :=
  match dictGet st.sessions session_id with
  | none => Except.error ("Session " ++ session_id ++ " not found")
  | some session =>
    match session.ecdd_assessment with
    | none =>
      Except.ok
        ("Assessment has not been generated yet. Please complete the questionnaire first.",
         st)
    | some assessment =>
      let (answer, threads1) :=
        backend session_id question session.client_profile assessment
          st.reporter_threads
      Except.ok (answer, { st with reporter_threads := threads1 })

/-- The flag-diff loop of `ECDDAgentCoordinator.compare_assessments`
(`agents.py`, lines 480-487): iterate the current assessment's dumped flags
in field order; a `False→True` transition is a new concern, a `True→False`
transition a resolved concern.  (`prev_flags.get(flag)` always finds the
flag: both dumps have the fixed field set.) -/
def compareFlagLists (curr prev : ComplianceFlags) :
    List String × List String :=
  List.foldl
    (fun acc fv =>
      if fv.2 && !((dictGet (prev.model_dump) fv.1).getD false) then
        (acc.1 ++ [fv.1], acc.2)
      else if !fv.2 && ((dictGet (prev.model_dump) fv.1).getD false) then
        (acc.1, acc.2 ++ [fv.1])
      else acc)
    ([], [])
    (curr.model_dump)

/-- The comparison record built by `compare_assessments` (`agents.py`, lines
432-489), restricted to the fields computed from the two assessments; the
session metadata echoes (ids, dates) and the float `risk_score` delta are
carried through unchanged or are pure float arithmetic and are not modelled.
-/
structure ComparisonResult where
  rating_previous : RiskLevel
  rating_current : RiskLevel
  rating_changed : Bool
  new_concerns : List String
  resolved_concerns : List String
deriving DecidableEq

/-- Models `ECDDAgentCoordinator.compare_assessments` on the two resolved
assessments (after its session- and assessment-presence checks). -/
def compare_assessments (current previous : ECDDAssessment) :
    ComparisonResult :=
  let lists := compareFlagLists current.compliance_flags previous.compliance_flags
  { rating_previous := previous.overall_risk_rating
    rating_current := current.overall_risk_rating
    rating_changed := decide (previous.overall_risk_rating ≠ current.overall_risk_rating)
    new_concerns := lists.1
    resolved_concerns := lists.2 }

/-! ## The reporter agent (`src/reporter_agent.py`, `ReporterValidatorAgent`)

The raw remote answer is free text with fenced payloads.  The fence
splitting and `json.loads` of the Python source are abstracted: a fenced
block is either a decoded record of exactly the keys the source reads
(`dict.get` becomes an `Option` field, so a JSON `null` value is identified
with an absent key) or a decode failure (`none`, the `json.JSONDecodeError`
branch).  Numeric values are assumed `float`-convertible and flag values
boolean; a non-convertible value would raise exactly like an invalid
`overall_risk_rating` string, which is modelled. -/
/-- The `"compliance_flags"` sub-dict of a decoded assessment block. -/
structure FlagsData where
  pep : Option Bool := none
  sanctions : Option Bool := none
  adverse_media : Option Bool := none
  high_risk_jurisdiction : Option Bool := none
  watchlist_hit : Option Bool := none
  source_of_wealth_concerns : Option Bool := none
  source_of_funds_concerns : Option Bool := none
  complex_ownership : Option Bool := none
deriving DecidableEq

/-- Lines 456-471: `ComplianceFlags(pep=flags_data.get("pep", False), ...)`. -/
def flagsOfData (d : FlagsData) : ComplianceFlags :=
  { pep := d.pep.getD false
    sanctions := d.sanctions.getD false
    adverse_media := d.adverse_media.getD false
    high_risk_jurisdiction := d.high_risk_jurisdiction.getD false
    watchlist_hit := d.watchlist_hit.getD false
    source_of_wealth_concerns := d.source_of_wealth_concerns.getD false
    source_of_funds_concerns := d.source_of_funds_concerns.getD false
    complex_ownership := d.complex_ownership.getD false }

/-- An entry of a decoded block's `"risk_factors"` list. -/
structure RiskFactorData where
  factor_name : Option String := none
  level : Option String := none
  score : Option ℚ := none
  justification : Option String := none
deriving DecidableEq

/-- A decoded ```json fenced block, with exactly the keys
`_parse_assessment_response` reads. -/
structure AssessBlockData where
  client_type : Option String := none
  client_category : Option String := none
  overall_risk_rating : Option String := none
  risk_score : Option ℚ := none
  risk_factors : Option (List RiskFactorData) := none
  compliance_flags : Option FlagsData := none
  recommendations : Option (List String) := none
  required_actions : Option (List String) := none
deriving DecidableEq

/-- The `risk_factors` loop (lines 446-452).  An invalid `level` string
makes `RiskLevel(...)` raise `ValueError` (`Except.error`), keeping the
factors appended so far; the factors of successive blocks accumulate (the
source appends and never resets). -/
def applyRiskFactors :
    ECDDAssessment → List RiskFactorData → Except ECDDAssessment ECDDAssessment
  | a, [] => Except.ok a
  | a, rf :: rest =>
    match RiskLevel.ofString (rf.level.getD "medium") with
    | none => Except.error a
    | some lv =>
      applyRiskFactors
        { a with risk_factors := a.risk_factors ++
            [{ factor_name := rf.factor_name.getD ""
               level := lv
               score := rf.score.getD (1/2)
               justification := rf.justification.getD "" }] }
        rest

/-- One iteration of the block loop (lines 430-476) on an already decoded
block: blocks without an assessment marker key (`overall_risk_rating` or
`compliance_flags`) are ignored; an invalid rating or factor level raises
out of the loop (`Except.error`) with the fields assigned before the raise
kept, since the source mutates one shared `assessment` object. -/
def applyAssessBlock (a : ECDDAssessment) (d : AssessBlockData) :
    Except ECDDAssessment ECDDAssessment :=
  if d.overall_risk_rating.isSome || d.compliance_flags.isSome then
    let a := { a with client_type := d.client_type.getD ""
                      client_category := d.client_category.getD "" }
    match RiskLevel.ofString (d.overall_risk_rating.getD "medium") with
    | none => Except.error a
    | some r =>
      let a := { a with overall_risk_rating := r
                        risk_score := d.risk_score.getD (1/2) }
      match applyRiskFactors a (d.risk_factors.getD []) with
      | Except.error a => Except.error a
      | Except.ok a =>
        let a := { a with compliance_flags := flagsOfData (d.compliance_flags.getD {}) }
        Except.ok { a with recommendations := d.recommendations.getD []
                           required_actions := d.required_actions.getD [] }
  else Except.ok a

/-- The loop over `response.split("```json")[1:]` (lines 426-478): a block
that fails to decode (`none`) is skipped (`except json.JSONDecodeError:
continue`); any other raise aborts the whole loop, to be caught by the
enclosing `except Exception` (line 491). -/
def applyAssessBlocks :
    ECDDAssessment → List (Option AssessBlockData) →
      Except ECDDAssessment ECDDAssessment
  | a, [] => Except.ok a
  | a, none :: rest => applyAssessBlocks a rest
  | a, some d :: rest =>
    match applyAssessBlock a d with
    | Except.error a1 => Except.error a1
    | Except.ok a1 => applyAssessBlocks a1 rest

/-- An entry of a decoded checklist block's document lists. -/
structure DocItemData where
  document_name : Option String := none
  priority : Option String := none
  category : Option String := none
  acceptable_formats : Option (List String) := none
  special_instructions : Option String := none
deriving DecidableEq

/-- A decoded ```documents fenced block. -/
structure ChecklistData where
  identity_documents : Option (List DocItemData) := none
  source_of_wealth_documents : Option (List DocItemData) := none
  source_of_funds_documents : Option (List DocItemData) := none
  compliance_documents : Option (List DocItemData) := none
  additional_documents : Option (List DocItemData) := none
deriving DecidableEq

/-- The `parse_docs` helper of `_parse_document_checklist` (lines 507-521):
an item whose priority string is not a `DocumentPriority` raises and is
skipped (`except: continue` is per item). -/
def parse_docs (l : List DocItemData) : List DocumentItem :=
  List.foldr
    (fun d acc =>
      match DocumentPriority.ofString (d.priority.getD "required") with
      | none => acc
      | some pr =>
        { document_name := d.document_name.getD ""
          priority := pr
          category := d.category.getD ""
          acceptable_formats := d.acceptable_formats.getD []
          special_instructions := d.special_instructions.getD ""
          status := "pending" } :: acc)
    []
    l

/-- Models `ReporterValidatorAgent._parse_document_checklist` (lines 505-533). -/
def _parse_document_checklist (d : ChecklistData) : DocumentChecklist :=
  { identity_documents := parse_docs (d.identity_documents.getD [])
    source_of_wealth_documents := parse_docs (d.source_of_wealth_documents.getD [])
    source_of_funds_documents := parse_docs (d.source_of_funds_documents.getD [])
    compliance_documents := parse_docs (d.compliance_documents.getD [])
    additional_documents := parse_docs (d.additional_documents.getD [])
    checklist_text := "" }

/-- The shape of a raw reporter answer, as `_parse_assessment_response`
consumes it: the raw text, the decode results of the ```json fenced blocks
in order (`response.split("```json")[1:]`, empty when the fence is absent),
and the decode result of the ```documents block when that fence occurs. -/
structure AssessmentResponse where
  raw : String
  json_blocks : List (Option AssessBlockData) := []
  documents_block : Option (Option ChecklistData) := none
deriving DecidableEq

/-- The compliance flags recovered from the remote text alone: the flag
state of the shared assessment object after the block loop, whether or not
the loop aborted. -/
def remoteParsedFlags (resp : AssessmentResponse) : ComplianceFlags :=
  match applyAssessBlocks { report_text := resp.raw } resp.json_blocks with
  | Except.error a => a.compliance_flags
  | Except.ok a => a.compliance_flags

/-- The profile back-fill (lines 494-501): only when the parsed flags assert
neither `pep` nor `sanctions`, force each of `pep`/`sanctions`/
`adverse_media` to `True` when the profile records the corresponding hit. -/
def backfillFlags (flags : ComplianceFlags) (client_profile : ClientProfile) :
    ComplianceFlags :=
  if !(flags.pep || flags.sanctions) then
    let flags := if profileHasPepHit client_profile
                 then { flags with pep := true } else flags
    let flags := if !(List.isEmpty client_profile.sanctions)
                 then { flags with sanctions := true } else flags
    let flags := if !(List.isEmpty client_profile.adverse_news)
                 then { flags with adverse_media := true } else flags
    flags
  else flags

/-- Models `ReporterValidatorAgent._parse_assessment_response` (lines 410-503):
start from a default assessment carrying the raw text and a default
checklist carrying the raw text, run the block loop, parse the ```documents
block only when the loop did not abort (a raise skips straight to line 491),
then apply the profile back-fill, which runs unconditionally after the
`try`/`except`. -/
def _parse_assessment_response (resp : AssessmentResponse)
    (client_profile : ClientProfile) : ECDDAssessment × DocumentChecklist :=
  let checklist0 : DocumentChecklist := { checklist_text := resp.raw }
  let (assessment, aborted) :=
    match applyAssessBlocks { report_text := resp.raw } resp.json_blocks with
    | Except.error a => (a, true)
    | Except.ok a => (a, false)
  let checklist :=
    if aborted then checklist0
    else
      match resp.documents_block with
      | none => checklist0
      | some none => checklist0
      | some (some d) => { _parse_document_checklist d with checklist_text := resp.raw }
  ({ assessment with
       compliance_flags := backfillFlags assessment.compliance_flags client_profile },
   checklist)

/-- Models `ReporterValidatorAgent._generate_fallback_assessment` (lines 535-623):
the deterministic assessment and checklist used when generation fails. -/
def _generate_fallback_assessment (client_profile : ClientProfile) :
    ECDDAssessment × DocumentChecklist :=
  let risk_level := RiskLevel.medium
  let risk_factors : List RiskFactor := []
  let (risk_level, risk_factors) :=
    if profileHasPepHit client_profile then
      (RiskLevel.high,
       risk_factors ++
         [{ factor_name := "PEP Status"
            level := RiskLevel.high
            score := 4/5
            justification := "Client identified as Politically Exposed Person" }])
    else (risk_level, risk_factors)
  let (risk_level, risk_factors) :=
    if !(List.isEmpty client_profile.sanctions) then
      (RiskLevel.critical,
       risk_factors ++
         [{ factor_name := "Sanctions Screening"
            level := RiskLevel.critical
            score := 19/20
            justification := "Sanctions screening returned " ++
              toString client_profile.sanctions.length ++ " hit(s)" }])
    else (risk_level, risk_factors)
  let (risk_level, risk_factors) :=
    if !(List.isEmpty client_profile.adverse_news) then
      ((if risk_level = RiskLevel.medium then RiskLevel.high else risk_level),
       risk_factors ++
         [{ factor_name := "Adverse Media"
            level := RiskLevel.high
            score := 7/10
            justification := "Adverse news screening found " ++
              toString client_profile.adverse_news.length ++ " item(s)" }])
    else (risk_level, risk_factors)
  ({ client_type := "Unknown (Fallback Assessment)"
     client_category := "Individual"
     overall_risk_rating := risk_level
     risk_score := 1/2
     risk_factors := risk_factors
     compliance_flags :=
       { pep := profileHasPepHit client_profile
         sanctions := !(List.isEmpty client_profile.sanctions)
         adverse_media := !(List.isEmpty client_profile.adverse_news) }
     recommendations :=
       ["Complete manual review of client documentation",
        "Verify source of wealth documentation",
        "Obtain enhanced due diligence sign-off"]
     report_text := "FALLBACK ASSESSMENT - AI generation failed. Please complete manual review." },
   { identity_documents :=
       [{ document_name := "Government-issued photo ID"
          priority := DocumentPriority.required
          category := "identity" },
        { document_name := "Proof of address (utility bill, bank statement)"
          priority := DocumentPriority.required
          category := "identity" }]
     source_of_wealth_documents :=
       [{ document_name := "Evidence of source of wealth"
          priority := DocumentPriority.required
          category := "sow" }]
     source_of_funds_documents :=
       [{ document_name := "Bank statements (3 months)"
          priority := DocumentPriority.required
          category := "sof" }]
     checklist_text := "Standard document checklist - customize based on client profile." })

/-- The outcome of the remote round trip inside `generate_assessment`:
either some step raised (thread creation, message posting, `_process_run`
internals), or `_process_run` returned `None`, or it returned text. -/
inductive RemoteTextOutcome where
  | raised
  | returned (t : Option AssessmentResponse)

/-- Models `ReporterValidatorAgent.generate_assessment` (lines 262-337) as a
function of the remote outcome: falsy text (`None` or the empty string) and
any raise produce the fallback pair; otherwise the answer is parsed.  The
prompt construction and the reporter's private thread cache do not affect
the returned pair and are not modelled here. -/
def generate_assessment (client_profile : ClientProfile)
    (outcome : RemoteTextOutcome) : ECDDAssessment × DocumentChecklist :=
  match outcome with
  | RemoteTextOutcome.raised => _generate_fallback_assessment client_profile
  | RemoteTextOutcome.returned none => _generate_fallback_assessment client_profile
  | RemoteTextOutcome.returned (some resp) =>
    if !strTruthy resp.raw then _generate_fallback_assessment client_profile
    else _parse_assessment_response resp client_profile

/-! ## The JSON recovery helper of the ported app (`src/updated_app.py`) -/
/-- ASCII whitespace as `str.strip()` removes it (space, tab, newline,
carriage return, vertical tab, form feed). -/
def pyIsSpace (c : Char) : Bool :=
  c = ' ' || c = '\t' || c = '\n' || c = '\r' || c = Char.ofNat 11 ||
    c = Char.ofNat 12

/-- Python `str.strip()` on the character list: drop leading and trailing
whitespace. -/
def pyStrip (l : List Char) : List Char :=
  ((l.dropWhile pyIsSpace).reverse.dropWhile pyIsSpace).reverse

/-- Python `str.replace(pattern, "")`, left-to-right and non-overlapping,
on the character list.  The fuel equals the list length at the top-level
call, which suffices for the non-empty patterns used here (every step
consumes at least one character). -/
def replaceAllAux (pattern : List Char) : ℕ → List Char → List Char
  | 0, l => l
  | _ + 1, [] => []
  | fuel + 1, c :: rest =>
    if List.isPrefixOf pattern (c :: rest) then
      replaceAllAux pattern fuel (List.drop pattern.length (c :: rest))
    else c :: replaceAllAux pattern fuel rest

/-- Python `s.replace(pattern, "")`. -/
def replaceAll (pattern l : List Char) : List Char :=
  replaceAllAux pattern l.length l

/-- The cleanup line of `safe_json_from_llm`:
`raw.strip().replace("```json", "").replace("```", "")`. -/
def cleanFences (raw : String) : List Char :=
  replaceAll "```".toList (replaceAll "```json".toList (pyStrip raw.toList))

/-- The scan loop of `safe_json_from_llm`: at every `{` of the cleaned text,
attempt `json.JSONDecoder().raw_decode` on the suffix from that `{` (the
decoder is a parameter abstracting the `json` stdlib); the first success is
returned, and exhausting the text raises
`ValueError("No valid JSON found")`. -/
def jsonScan {α : Type} (decoder : String → Option α) :
    List Char → Except String α
  | [] => Except.error "No valid JSON found"
  | c :: rest =>
    if c = '{' then
      match decoder (String.mk (c :: rest)) with
      | some v => Except.ok v
      | none => jsonScan decoder rest
    else jsonScan decoder rest

/-- Models `safe_json_from_llm` (`updated_app.py`, lines 68-78): clean the fences,
then scan for a decodable object; absence raises (`Except.error`). -/
def safe_json_from_llm {α : Type} (decoder : String → Option α)
    (raw : String) : Except String α :=
  jsonScan decoder (cleanFences raw)

/-! ## The questionnaire agent (`src/questionnaire_agent.py`,
`QuestionnaireGeneratorAgent`) -/
/-- An entry of a decoded questionnaire's `"questions"` list, with exactly
the keys `_parse_questionnaire_response` reads. -/
structure QuestionFieldData where
  field_id : Option String := none
  question_text : Option String := none
  question_type : Option String := none
  required : Option Bool := none
  help_text : Option String := none
  options : Option (List String) := none
  category : Option String := none
  aml_relevant : Option Bool := none
deriving DecidableEq

/-- An entry of a decoded questionnaire's `"sections"` list. -/
structure QuestionSectionData where
  section_id : Option String := none
  section_title : Option String := none
  section_description : Option String := none
  section_icon : Option String := none
  order : Option ℤ := none
  questions : Option (List QuestionFieldData) := none
deriving DecidableEq

/-- A decoded questionnaire JSON object. -/
structure QuestionnaireData where
  client_type : Option String := none
  sections : Option (List QuestionSectionData) := none
deriving DecidableEq

/-- A raw questionnaire-agent answer as `_parse_questionnaire_response`
consumes it: the raw text and the `json.loads` result after fence cleanup
(`none` is the `json.JSONDecodeError` branch). -/
structure QuestionnaireResponse where
  raw : String
  decoded : Option QuestionnaireData := none
deriving DecidableEq

/-- The inner question loop (lines 469-480).  `QuestionType(...)` on an
unknown type string raises `ValueError`, which `_parse_questionnaire_response`
does not catch (`Except.error`).  `qfresh i j` supplies the
`str(uuid.uuid4())[:8]` default for the `j`-th question of the `i`-th
section. -/
def parseQuestionFields (qfresh : ℕ → ℕ → String) (i : ℕ) :
    ℕ → List QuestionFieldData → Except Unit (List QuestionField)
  | _, [] => Except.ok []
  | j, q :: rest =>
    match QuestionType.ofString (q.question_type.getD "text") with
    | none => Except.error ()
    | some qt => do
      let tail ← parseQuestionFields qfresh i (j + 1) rest
      Except.ok
        ({ field_id := q.field_id.getD (qfresh i j)
           question_text := q.question_text.getD ""
           question_type := qt
           required := q.required.getD true
           help_text := q.help_text.getD ""
           options := q.options.getD []
           category := q.category.getD ""
           aml_relevant := q.aml_relevant.getD false } :: tail)

/-- The section loop (lines 467-489).  `sfresh i` supplies the uuid default
for the `i`-th section id. -/
def parseQuestionSections (sfresh : ℕ → String) (qfresh : ℕ → ℕ → String) :
    ℕ → List QuestionSectionData → Except Unit (List QuestionSection)
  | _, [] => Except.ok []
  | i, s :: rest => do
    let questions ← parseQuestionFields qfresh i 0 (s.questions.getD [])
    let tail ← parseQuestionSections sfresh qfresh (i + 1) rest
    Except.ok
      ({ section_id := s.section_id.getD (sfresh i)
         section_title := s.section_title.getD "Questions"
         section_description := s.section_description.getD ""
         section_icon := s.section_icon.getD "📋"
         order := s.order.getD 0
         questions := questions } :: tail)

/-- Models `QuestionnaireGeneratorAgent._generate_fallback_questionnaire` (lines
507-588): the fixed three-section fallback, id-prefixed in follow-up mode.
`uuid` supplies the `uuid.uuid4()` draw for the questionnaire id, `now` the
`created_at` default. -/
def _generate_fallback_questionnaire (profile : ClientProfile)
    (is_followup : Bool) (uuid now : String) : DynamicQuestionnaire :=
  let pfx := if is_followup then "followup-" else ""
  { questionnaire_id := pfx ++ uuid
    customer_id := profile.customer_id
    customer_name := profile.customer_name
    created_at := now
    sections :=
      [{ section_id := pfx ++ "identity"
         section_title := "Identity Verification"
         section_description := "Confirm client identity details"
         section_icon := "🪪"
         order := 1
         questions :=
           [{ field_id := pfx ++ "id_verified"
              question_text := "Have you verified the client's identity documents?"
              question_type := QuestionType.yes_no
              required := true
              category := "identity"
              aml_relevant := true }] },
       { section_id := pfx ++ "sow"
         section_title := "Source of Wealth"
         section_description := "Verify the origin of the client's wealth"
         section_icon := "💰"
         order := 2
         questions :=
           [{ field_id := pfx ++ "primary_sow"
              question_text := "What is the primary source of the client's wealth?"
              question_type := QuestionType.dropdown
              required := true
              options := ["Employment", "Business Ownership", "Inheritance",
                          "Investments", "Sale of Property", "Other"]
              category := "sow"
              aml_relevant := true },
            { field_id := pfx ++ "sow_documentation"
              question_text := "What documentation can the client provide to verify source of wealth?"
              question_type := QuestionType.textarea
              required := true
              category := "sow"
              aml_relevant := true }] },
       { section_id := pfx ++ "sof"
         section_title := "Source of Funds"
         section_description := "Verify the source of funds for transactions"
         section_icon := "💵"
         order := 3
         questions :=
           [{ field_id := pfx ++ "expected_activity"
              question_text := "What is the expected monthly transaction volume?"
              question_type := QuestionType.dropdown
              required := true
              options := ["< $10,000", "$10,000 - $50,000",
                          "$50,000 - $100,000", "$100,000 - $500,000", "> $500,000"]
              category := "sof"
              aml_relevant := true }] }]
    client_type := "Unknown"
    profile_summary := [("fallback", true)] }

/-- Models `QuestionnaireGeneratorAgent._parse_questionnaire_response` (lines
449-505): decode failure is caught and yields the fallback questionnaire on
a profile rebuilt from just the customer id and name; an unknown question
type raises out of the function (`Except.error`).  `qid` supplies the
`uuid.uuid4()` draw for the questionnaire id of the parsed result, `uuid`
the draw of the decode-failure fallback. -/
def _parse_questionnaire_response (resp : QuestionnaireResponse)
    (customer_id customer_name : String) (qid uuid : String)
    (sfresh : ℕ → String) (qfresh : ℕ → ℕ → String) (now : String) :
    Except Unit DynamicQuestionnaire :=
  match resp.decoded with
  | none =>
    Except.ok (_generate_fallback_questionnaire
      { customer_id := customer_id, customer_name := customer_name }
      false uuid now)
  | some d => do
    let sections ← parseQuestionSections sfresh qfresh 0 (d.sections.getD [])
    Except.ok
      { questionnaire_id := qid
        customer_id := customer_id
        customer_name := customer_name
        created_at := now
        sections := sections
        client_type := d.client_type.getD ""
        profile_summary := [("parsed", true)] }

/-- The outcome of the remote round trip inside `generate_questionnaire`. -/
inductive QGenOutcome where
  | raised
  | returned (t : Option QuestionnaireResponse)

/-- Models `QuestionnaireGeneratorAgent.generate_questionnaire` (lines 226-295) as
a function of the remote outcome: a raise anywhere in the `try` block, a
falsy response (`None` or empty), a decode failure, or an invalid question
type all end in `_generate_fallback_questionnaire`; only a decoded,
well-typed answer is mapped into a `DynamicQuestionnaire`. -/
def generate_questionnaire (client_profile : ClientProfile)
    (outcome : QGenOutcome) (qid uuid : String)
    (sfresh : ℕ → String) (qfresh : ℕ → ℕ → String) (now : String) :
    DynamicQuestionnaire :=
  match outcome with
  | QGenOutcome.raised =>
    _generate_fallback_questionnaire client_profile false uuid now
  | QGenOutcome.returned none =>
    _generate_fallback_questionnaire client_profile false uuid now
  | QGenOutcome.returned (some resp) =>
    if !strTruthy resp.raw then
      _generate_fallback_questionnaire client_profile false uuid now
    else
      match _parse_questionnaire_response resp client_profile.customer_id
              client_profile.customer_name qid uuid sfresh qfresh now with
      | Except.error _ =>
        _generate_fallback_questionnaire client_profile false uuid now
      | Except.ok q => q

/-! ## The poll loop (`_process_run`, identical in
`questionnaire_agent.py` lines 297-346 and `reporter_agent.py` lines
211-260)

The remote is a scripted status sequence: `script i` is the status returned
by the `i`-th `get_run` call; the initial status comes from
`create_and_process`.  The loop is embedded with explicit fuel; the lemma
`pollLoopAux_isSome` shows the fuel of `pollLoop` is never exhausted (each
iteration adds at least `0.5` to `total_wait`, which is capped at `120`),
so the fuel is an encoding device, not a semantic bound. -/
/-- Models `run.status in ["queued", "in_progress", "requires_action"]`. -/
def nonTerminalStatus (s : String) : Bool :=
  s = "queued" || s = "in_progress" || s = "requires_action"

/-- How the poll loop ends: the `total_wait > max_wait` branch (line 318 /
232, logging "Run timed out"), the `run.status == "failed"` branch (logging
"Run failed"), or a non-failed terminal status (the code then goes on to
fetch the messages).  The Python function maps the first two to `None`. -/
inductive PollExit where
  | timedOut
  | runFailed
  | completed (status : String)
deriving DecidableEq

/-- The `while` loop of `_process_run` with `poll_delay = 0.5`,
`max_wait = 120`, `total_wait = 0` (lines 310-327 / 224-241): sleep
`poll_delay`, add it to `total_wait`, return the timeout on
`total_wait > max_wait` **before** polling again, otherwise poll and set
`poll_delay = min(poll_delay * 1.5, 5.0)`.  Returns the exit, the list of
sleep durations, and the number of `get_run` polls performed. -/
def pollLoopAux (script : ℕ → String) :
    ℕ → ℚ → ℚ → String → ℕ → Option (PollExit × List ℚ × ℕ)
  | 0, _, _, _, _ => none
  | fuel + 1, poll_delay, total_wait, status, i =>
    if nonTerminalStatus status then
      let total := total_wait + poll_delay
      if 120 < total then some (PollExit.timedOut, [poll_delay], 0)
      else
        match pollLoopAux script fuel (min (poll_delay * (3/2)) 5) total
                (script i) (i + 1) with
        | none => none
        | some (e, sleeps, polls) => some (e, poll_delay :: sleeps, polls + 1)
    else
      some (if status = "failed" then PollExit.runFailed
            else PollExit.completed status, [], 0)

/-- The poll loop as entered by `_process_run`: fuel `300`, initial delay
`0.5`, zero accumulated wait. -/
def pollLoop (script : ℕ → String) (initial_status : String) :
    Option (PollExit × List ℚ × ℕ) :=
  pollLoopAux script 300 (1/2) 0 initial_status 0

/-- A message of `messages.list`, as the tail of `_process_run` reads it:
`text = none` models `msg.content[0].text.value` raising, in which case
`str(msg.content)` (`content_str`) is returned. -/
structure AgentMessage where
  role : Option String := none
  text : Option String := none
  content_str : String := ""
deriving DecidableEq

/-- The message scan at the end of `_process_run` (lines 339-346 /
253-260): the first message with role `"assistant"` yields its text. -/
def firstAssistantText : List AgentMessage → Option String
  | [] => none
  | m :: rest =>
    if m.role = some "assistant" then some (m.text.getD m.content_str)
    else firstAssistantText rest

/-- Models `_process_run` end to end: run the poll loop, map the timeout and
failure exits to `None`, and otherwise return the first assistant message
(`messages` is what `messages.list` returns after completion). -/
def process_run (script : ℕ → String) (initial_status : String)
    (messages : List AgentMessage) : Option String :=
  match pollLoop script initial_status with
  | none => none
  | some (PollExit.timedOut, _, _) => none
  | some (PollExit.runFailed, _, _) => none
  | some (PollExit.completed _, _, _) => firstAssistantText messages

/-- The backoff schedule of the poll loop: `0.5`, thereafter multiplied by
`1.5` and capped at `5` after every poll. -/
def delaySchedule : ℕ → ℚ
  | 0 => 1/2
  | n + 1 => min (delaySchedule n * (3/2)) 5

/-- The delays slept by a loop whose current delay is `d`, for `n`
iterations. -/
def delayList (d : ℚ) : ℕ → List ℚ
  | 0 => []
  | n + 1 => d :: delayList (min (d * (3/2)) 5) n

/-- A generic form of the flag-diff loop: the pair list carries, per flag
name, the current and the previous value. -/
def flagLoop :
    List (String × Bool × Bool) → List String × List String →
      List String × List String
  | [], acc => acc
  | (nm, cv, pv) :: rest, acc =>
    flagLoop rest
      (if cv && !pv then (acc.1 ++ [nm], acc.2)
       else if !cv && pv then (acc.1, acc.2 ++ [nm]) else acc)

/-- The name/current/previous triples of the fixed flag set, in field
order. -/
def flagPairs (curr prev : ComplianceFlags) : List (String × Bool × Bool) :=
  [("pep", curr.pep, prev.pep),
   ("sanctions", curr.sanctions, prev.sanctions),
   ("adverse_media", curr.adverse_media, prev.adverse_media),
   ("high_risk_jurisdiction", curr.high_risk_jurisdiction, prev.high_risk_jurisdiction),
   ("watchlist_hit", curr.watchlist_hit, prev.watchlist_hit),
   ("source_of_wealth_concerns", curr.source_of_wealth_concerns, prev.source_of_wealth_concerns),
   ("source_of_funds_concerns", curr.source_of_funds_concerns, prev.source_of_funds_concerns),
   ("complex_ownership", curr.complex_ownership, prev.complex_ownership)]

/-! ## Concrete fixtures used by witnesses and counterexamples -/
/-- A minimal client profile with no screening hits. -/
def demoProfile : ClientProfile :=
  { customer_id := "CU-1", customer_name := "Dana Fox" }

/-- A session already in the terminal review state `APPROVED`. -/
def approvedSession : QuestionnaireSession :=
  { session_id := "S-1", customer_id := "CU-1", customer_name := "Dana Fox",
    status := SessionStatus.approved, client_profile := demoProfile }

/-- A completed parent session holding responses `{a: 1, b: 2}`. -/
def parentSession : QuestionnaireSession :=
  { session_id := "P-1", customer_id := "CU-1", customer_name := "Dana Fox",
    status := SessionStatus.reports_generated, client_profile := demoProfile,
    responses := [("a", PyVal.int 1), ("b", PyVal.int 2)] }

/-- A follow-up session linked to `parentSession`. -/
def childSession : QuestionnaireSession :=
  { session_id := "F-1", customer_id := "CU-1", customer_name := "Dana Fox",
    status := SessionStatus.questionnaire_generated,
    client_profile := demoProfile,
    is_followup := true, parent_session_id := some "P-1" }

/-- A coordinator holding the parent and its follow-up. -/
def demoState : CoordState :=
  { sessions := [("P-1", parentSession), ("F-1", childSession)] }

/-- A reporter back-end returning default objects. -/
def nullReporter : ReporterBackend := fun _ _ _ => ({}, {})

/-! ## C10 — querying before the assessment exists -/
/-- A query back-end that is never consulted in the fixture run. -/
def nullQueryBackend : QueryBackend := fun _ _ _ _ threads => ("", threads)

/-! ## C2 — compliance-flag back-fill -/
/-- A profile whose screening history records a PEP hit. -/
def pepProfile : ClientProfile :=
  { customer_id := "CU-2", customer_name := "Ira Moss",
    pep_status := [{ is_pep := true }] }

/-- A remote answer whose single decoded block asserts
`sanctions = true` and `pep = false`. -/
def sanctionsOnlyResponse : AssessmentResponse :=
  { raw := "ECDD assessment narrative."
    json_blocks :=
      [some { overall_risk_rating := some "medium"
              compliance_flags := some { pep := some false
                                         sanctions := some true } }] }

/-! ## C6 — the fallback assessment and checklist -/
/-- A profile whose only screening hit is one adverse-news item. -/
def adverseOnlyProfile : ClientProfile :=
  { customer_id := "CU-3", customer_name := "Max Low",
    adverse_news := [{}] }

/-! ## C3 — questionnaire generation under total back-end outage -/
/-- The back-end outcomes under which `generate_questionnaire` cannot use
the remote answer: a raise (remote error or timeout surfaces as
`_process_run` returning `None`, and transport errors raise), a falsy
response text, or undecodable output. -/
def failingOutcome : QGenOutcome → Bool
  | QGenOutcome.raised => true
  | QGenOutcome.returned none => true
  | QGenOutcome.returned (some resp) =>
    !strTruthy resp.raw || resp.decoded.isNone

theorem dictGet_dictInsert {α : Type} (d : PyDict α) (k : String) (v : α)
    (k' : String) :
    dictGet (dictInsert d k v) k' = if k' = k then some v else dictGet d k' := by
  induction d with
  | nil =>
    by_cases h : k' = k <;> simp [dictGet, dictInsert, h]
  | cons kv tl ih =>
    by_cases hhd : kv.1 = k
    · by_cases h : k' = k
      · simp [dictGet, dictInsert, hhd, h]
      · have h2 : ¬k' = kv.1 := by rw [hhd]; exact h
        simp [dictGet, dictInsert, hhd, h, h2]
    · by_cases h : k' = k
      · have h2 : ¬k' = kv.1 := by intro hc; exact hhd (by rw [← hc, h])
        subst h
        simp [dictGet, dictInsert, hhd, h2, ih]
      · by_cases h2 : k' = kv.1
        · simp [dictGet, dictInsert, hhd, h2]
        · simp [dictGet, dictInsert, hhd, h, h2, ih]

theorem dictGet_eq_none_of_not_mem {α : Type} (d : PyDict α) (k : String)
    (h : k ∉ dictKeys d) : dictGet d k = none := by
  induction d with
  | nil => rfl
  | cons kv tl ih =>
    simp only [dictKeys, List.map_cons, List.mem_cons] at h
    push_neg at h
    simp [dictGet, h.1, ih h.2]

/-- Lookup in a Python dict-merge `{**p, **c}` (for `c` with distinct keys,
which every Python dict has): the binding of `c` wins, falling back to `p`. -/
theorem dictGet_dictUpdate {α : Type} (p c : PyDict α) (k : String)
    (hc : (dictKeys c).Nodup) :
    dictGet (dictUpdate p c) k = ((dictGet c k).or (dictGet p k)) := by
  induction c generalizing p with
  | nil => simp [dictUpdate, dictGet]
  | cons kv tl ih =>
    simp only [dictKeys, List.map_cons, List.nodup_cons] at hc
    simp only [dictUpdate, List.foldl_cons]
    rw [show List.foldl (fun d kv => dictInsert d kv.1 kv.2)
          (dictInsert p kv.1 kv.2) tl
        = dictUpdate (dictInsert p kv.1 kv.2) tl from rfl]
    rw [ih _ hc.2]
    by_cases h : k = kv.1
    · subst h
      have hnone : dictGet tl kv.1 = none :=
        dictGet_eq_none_of_not_mem _ _ (fun hmem => hc.1 hmem)
      simp [dictGet, hnone, dictGet_dictInsert]
    · simp [dictGet, dictGet_dictInsert, h]

theorem delayList_delaySchedule (k n : ℕ) :
    delayList (delaySchedule k) n
      = List.map (fun j => delaySchedule (k + j)) (List.range n) := by
  induction n generalizing k with
  | zero => simp [delayList]
  | succ n ih =>
    rw [List.range_succ_eq_map]
    simp only [delayList, List.map_cons, List.map_map, Nat.add_zero]
    rw [show min (delaySchedule k * (3/2)) 5 = delaySchedule (k + 1) from rfl,
      ih (k + 1),
      show ((fun j => delaySchedule (k + j)) ∘ Nat.succ)
          = (fun j => delaySchedule (k + 1 + j)) from
        funext (fun j => by
          simp only [Function.comp_apply]
          congr 1
          omega)]

/-- Fuel adequacy: the loop always stops well inside `300` iterations, for
every script, because each iteration adds at least `0.5` to `total_wait`
and the loop stops once `total_wait` exceeds `120`. -/
theorem pollLoopAux_isSome (script : ℕ → String) (fuel : ℕ)
    (poll_delay total_wait : ℚ) (status : String) (i : ℕ)
    (h1 : total_wait ≤ 120) (h2 : 2 * (120 - total_wait) + 2 ≤ (fuel : ℚ))
    (h3 : 1/2 ≤ poll_delay) :
    (pollLoopAux script fuel poll_delay total_wait status i).isSome := by
  induction fuel generalizing poll_delay total_wait status i with
  | zero =>
    exfalso
    push_cast at h2
    linarith
  | succ fuel ih =>
    rw [pollLoopAux]
    by_cases hterm : nonTerminalStatus status
    · simp only [hterm, if_true]
      by_cases hto : (120 : ℚ) < total_wait + poll_delay
      · simp [hto]
      · push_neg at hto
        have hrec := ih (min (poll_delay * (3/2)) 5) (total_wait + poll_delay)
          (script i) (i + 1) hto
          (by push_cast at h2; linarith)
          (by
            rcases min_cases (poll_delay * (3/2)) 5 with ⟨hmin, _⟩ | ⟨hmin, _⟩ <;>
              rw [hmin] <;> linarith)
        obtain ⟨r, hr⟩ := Option.isSome_iff_exists.mp hrec
        simp [not_lt.mpr hto, hr]
    · simp [hterm]

/-- Trace shape of the poll loop: the sleeps follow the delay schedule from
the loop's entry delay, a timed-out run performed one poll fewer than it
slept (the final sleep is followed by the timeout return, not by a poll),
and every other exit polled once per sleep. -/
theorem pollLoopAux_trace (script : ℕ → String) (fuel : ℕ)
    (poll_delay total_wait : ℚ) (status : String) (i : ℕ)
    (e : PollExit) (sleeps : List ℚ) (polls : ℕ)
    (h : pollLoopAux script fuel poll_delay total_wait status i
          = some (e, sleeps, polls)) :
    sleeps = delayList poll_delay sleeps.length ∧
      (e = PollExit.timedOut → polls + 1 = sleeps.length) ∧
      (e ≠ PollExit.timedOut → polls = sleeps.length) ∧
      (e = PollExit.timedOut → 120 < total_wait + sleeps.sum) := by
  induction fuel generalizing poll_delay total_wait status i e sleeps polls with
  | zero => simp [pollLoopAux] at h
  | succ fuel ih =>
    rw [pollLoopAux] at h
    by_cases hterm : nonTerminalStatus status
    · simp only [hterm, if_true] at h
      by_cases hto : (120 : ℚ) < total_wait + poll_delay
      · simp only [hto, if_true, Option.some.injEq, Prod.mk.injEq] at h
        obtain ⟨he, hs, hp⟩ := h
        subst he; subst hs; subst hp
        refine ⟨by simp [delayList], fun _ => rfl, fun hne => absurd rfl hne,
          fun _ => by simpa using hto⟩
      · simp only [hto, if_false] at h
        cases hrec : pollLoopAux script fuel (min (poll_delay * (3/2)) 5)
            (total_wait + poll_delay) (script i) (i + 1) with
        | none => rw [hrec] at h; simp at h
        | some r =>
          obtain ⟨e1, sleeps1, polls1⟩ := r
          rw [hrec] at h
          simp only [Option.some.injEq, Prod.mk.injEq] at h
          obtain ⟨he, hs, hp⟩ := h
          subst he; subst hs; subst hp
          obtain ⟨ihs, ihto, ihnto, ihsum⟩ := ih _ _ _ _ _ _ _ hrec
          refine ⟨?_, ?_, ?_, ?_⟩
          · simp only [List.length_cons, delayList]
            rw [← ihs]
          · intro hto1
            rw [List.length_cons, ihto hto1]
          · intro hto1
            rw [List.length_cons, ihnto hto1]
          · intro hto1
            have := ihsum hto1
            rw [List.sum_cons]
            linarith
    · simp only [hterm, Bool.false_eq_true, if_false, Option.some.injEq,
        Prod.mk.injEq] at h
      obtain ⟨he, hs, hp⟩ := h
      subst hs; subst hp
      have hnotto : e ≠ PollExit.timedOut := by
        intro hto1
        rw [hto1] at he
        by_cases hf : status = "failed" <;> simp [hf] at he
      exact ⟨by simp [delayList], fun hto1 => absurd hto1 hnotto,
        fun _ => rfl, fun hto1 => absurd hto1 hnotto⟩

/-! ## Helper lemmas -/
theorem applyResponsesArg_status (s : QuestionnaireSession)
    (a : Option (PyDict PyVal)) : (applyResponsesArg s a).status = s.status := by
  cases a with
  | none => rfl
  | some r =>
    simp only [applyResponsesArg]
    split <;> rfl

theorem applyAssessmentArg_status (s : QuestionnaireSession)
    (a : Option ECDDAssessment) : (applyAssessmentArg s a).status = s.status := by
  cases a <;> rfl

theorem applyChecklistArg_status (s : QuestionnaireSession)
    (a : Option DocumentChecklist) : (applyChecklistArg s a).status = s.status := by
  cases a <;> rfl

theorem applyReviewDecisionArg_status (s : QuestionnaireSession)
    (a : Option String) (now : String) :
    (applyReviewDecisionArg s a now).status = s.status := by
  cases a with
  | none => rfl
  | some d =>
    simp only [applyReviewDecisionArg]
    split <;> rfl

theorem applyReviewNotesArg_status (s : QuestionnaireSession)
    (a : Option String) : (applyReviewNotesArg s a).status = s.status := by
  cases a with
  | none => rfl
  | some n =>
    simp only [applyReviewNotesArg]
    split <;> rfl

theorem applyReviewedByArg_status (s : QuestionnaireSession)
    (a : Option String) : (applyReviewedByArg s a).status = s.status := by
  cases a with
  | none => rfl
  | some r =>
    simp only [applyReviewedByArg]
    split <;> rfl

theorem dictTruthy_false_iff {α : Type} (d : PyDict α) :
    dictTruthy d = false ↔ d = [] := by
  cases d <;> simp [dictTruthy, List.isEmpty]

/-- A run whose status script never reaches a terminal state can only leave
the loop through the timeout branch. -/
theorem pollLoopAux_timeout_of_nonterminal (script : ℕ → String) (fuel : ℕ)
    (poll_delay total_wait : ℚ) (status : String) (i : ℕ)
    (e : PollExit) (sleeps : List ℚ) (polls : ℕ)
    (hstatus : nonTerminalStatus status = true)
    (hscript : ∀ j, nonTerminalStatus (script j) = true)
    (h : pollLoopAux script fuel poll_delay total_wait status i
          = some (e, sleeps, polls)) :
    e = PollExit.timedOut := by
  induction fuel generalizing poll_delay total_wait status i e sleeps polls with
  | zero => simp [pollLoopAux] at h
  | succ fuel ih =>
    rw [pollLoopAux] at h
    simp only [hstatus, if_true] at h
    by_cases hto : (120 : ℚ) < total_wait + poll_delay
    · simp only [hto, if_true, Option.some.injEq, Prod.mk.injEq] at h
      exact h.1.symm
    · simp only [hto, if_false] at h
      cases hrec : pollLoopAux script fuel (min (poll_delay * (3/2)) 5)
          (total_wait + poll_delay) (script i) (i + 1) with
      | none => rw [hrec] at h; simp at h
      | some r =>
        obtain ⟨e1, sleeps1, polls1⟩ := r
        rw [hrec] at h
        simp only [Option.some.injEq, Prod.mk.injEq] at h
        rw [← h.1]
        exact ih _ _ _ _ _ _ _ (hscript i) hrec

theorem compareFlagLists_eq_flagLoop (curr prev : ComplianceFlags) :
    compareFlagLists curr prev = flagLoop (flagPairs curr prev) ([], []) := rfl

theorem flagPairs_swap (curr prev : ComplianceFlags) :
    flagPairs prev curr
      = (flagPairs curr prev).map (fun p => (p.1, p.2.2, p.2.1)) := rfl

theorem flagLoop_swapped (l : List (String × Bool × Bool)) :
    ∀ acc : List String × List String,
      flagLoop (l.map (fun p => (p.1, p.2.2, p.2.1))) (acc.2, acc.1)
        = ((flagLoop l acc).2, (flagLoop l acc).1) := by
  induction l with
  | nil => intro acc; rfl
  | cons p rest ih =>
    intro acc
    obtain ⟨nm, cv, pv⟩ := p
    simp only [List.map_cons, flagLoop]
    cases cv <;> cases pv <;> simp
    · exact ih acc
    · exact ih (acc.1, acc.2 ++ [nm])
    · exact ih (acc.1 ++ [nm], acc.2)
    · exact ih acc

theorem parse_flags_eq_backfill (resp : AssessmentResponse)
    (profile : ClientProfile) :
    (_parse_assessment_response resp profile).1.compliance_flags
      = backfillFlags (remoteParsedFlags resp) profile := by
  unfold _parse_assessment_response remoteParsedFlags
  cases h : applyAssessBlocks { report_text := resp.raw } resp.json_blocks <;>
    simp [h]

theorem backfillFlags_pep (f : ComplianceFlags) (p : ClientProfile) :
    (backfillFlags f p).pep
      = if f.pep || f.sanctions then f.pep else profileHasPepHit p := by
  unfold backfillFlags
  cases hp : f.pep <;> cases hs : f.sanctions <;>
    simp only [hp, hs, Bool.or_self, Bool.or_true, Bool.true_or,
      Bool.not_true, Bool.not_false, Bool.false_or, if_true, if_false] <;>
    split_ifs <;> simp_all

/-- The three-section shape of the fallback questionnaire, independent of
the profile, the mode and the drawn identifiers. -/
theorem fallback_questionnaire_shape (profile : ClientProfile)
    (is_followup : Bool) (uuid now : String) :
    (_generate_fallback_questionnaire profile is_followup uuid now).sections.length = 3
    ∧ ∀ s ∈ (_generate_fallback_questionnaire profile is_followup uuid now).sections,
        ∃ q ∈ s.questions, q.required = true := by
  refine ⟨rfl, ?_⟩
  intro s hs
  simp only [_generate_fallback_questionnaire, List.mem_cons,
    List.not_mem_nil, or_false] at hs
  rcases hs with rfl | rfl | rfl
  · exact ⟨_, List.mem_cons_self _ _, rfl⟩
  · exact ⟨_, List.mem_cons_self _ _, rfl⟩
  · exact ⟨_, List.mem_cons_self _ _, rfl⟩

/-! ## C1 — lifecycle transitions -/
/-- C1 counterexample: the store has no transition guard at all.  Starting
from a store whose only session is `APPROVED` (a terminal review state), a
single `update_session` call requesting `QUESTIONNAIRE_GENERATED` leaves the
stored session in status `QUESTIONNAIRE_GENERATED`: the terminal-to-
non-terminal attempt is neither rejected nor ignored, refuting the claim
that no operation sequence can produce `APPROVED → QUESTIONNAIRE_GENERATED`.
-/
theorem update_session_terminal_escape :
    (dictGet [("S-1", approvedSession)] "S-1").map QuestionnaireSession.status
      = some SessionStatus.approved
    ∧ (dictGet (update_session [("S-1", approvedSession)] "S-1"
          { status := some SessionStatus.questionnaire_generated } "T-1").2
        "S-1").map QuestionnaireSession.status
      = some SessionStatus.questionnaire_generated := by
  exact ⟨rfl, rfl⟩

/-- C1 amended: `ECDDSessionManager.update_session` applies **any**
requested status unconditionally — for every store, every session found in
it and every requested status (terminal-to-non-terminal included), the
returned and stored session carries exactly the requested status; no
transition is rejected or ignored. -/
theorem update_session_applies_any_status
    (sessions : PyDict QuestionnaireSession) (session_id : String)
    (args : UpdateSessionArgs) (now : String)
    (session : QuestionnaireSession) (st : SessionStatus)
    (hfound : dictGet sessions session_id = some session)
    (hst : args.status = some st) :
    ∃ s1, update_session sessions session_id args now
        = (some s1, dictInsert sessions session_id s1)
      ∧ s1.status = st := by
  unfold update_session
  rw [hfound]
  refine ⟨_, rfl, ?_⟩
  simp only [applyReviewedByArg_status, applyReviewNotesArg_status,
    applyReviewDecisionArg_status, applyChecklistArg_status,
    applyAssessmentArg_status, applyResponsesArg_status]
  rw [hst]
  rfl

/-- C1 witness: the amended theorem applied to the `APPROVED` session with
requested status `QUESTIONNAIRE_GENERATED`. -/
theorem update_session_applies_any_status_witness :
    dictGet [("S-1", approvedSession)] "S-1" = some approvedSession
    ∧ ∃ s1, update_session [("S-1", approvedSession)] "S-1"
          { status := some SessionStatus.questionnaire_generated } "T-1"
        = (some s1, dictInsert [("S-1", approvedSession)] "S-1" s1)
      ∧ s1.status = SessionStatus.questionnaire_generated :=
  ⟨rfl, update_session_applies_any_status _ _ _ _ _ _ rfl rfl⟩

/-! ## C4 and C8 — merging follow-up responses -/
/-- C4: `submit_followup_responses` stores on the follow-up session the
merge of the parent's responses with the submitted follow-up responses,
where the value at every key `k` is the follow-up value when `k` is among
the follow-up responses and the parent's value otherwise (follow-up wins on
collision). -/
theorem submit_followup_child_precedence
    (st : CoordState) (fid pid : String) (responses : PyDict PyVal)
    (reporter : ReporterBackend) (now : String)
    (fs parent : QuestionnaireSession)
    (hfs : dictGet st.sessions fid = some fs)
    (hif : fs.is_followup = true)
    (hpid : fs.parent_session_id = some pid)
    (hpt : strTruthy pid = true)
    (hparent : dictGet st.sessions pid = some parent)
    (hnodup : (dictKeys responses).Nodup) :
    ∃ r stOut,
      submit_followup_responses st fid responses reporter now
        = Except.ok (r, stOut)
      ∧ (dictGet stOut.sessions fid).isSome = true
      ∧ ∀ child, dictGet stOut.sessions fid = some child →
          ∀ k, dictGet child.responses k
            = ((dictGet responses k).or (dictGet parent.responses k)) := by
  unfold submit_followup_responses
  have hcond : (!fs.is_followup || !optStrTruthy (some pid)) = false := by
    simp [hif, optStrTruthy, hpt]
  simp only [hfs, hpid, hcond, Bool.false_eq_true, if_false, Option.getD_some,
    hparent]
  refine ⟨_, _, rfl, ?_, ?_⟩
  · rw [dictGet_dictInsert]
    simp
  · intro child hchild k
    rw [dictGet_dictInsert, if_pos rfl] at hchild
    injection hchild with hchild
    subst hchild
    show dictGet (dictUpdate
        (if dictTruthy parent.responses = true then parent.responses else [])
        responses) k
      = ((dictGet responses k).or (dictGet parent.responses k))
    rw [dictGet_dictUpdate _ _ _ hnodup]
    by_cases hbt : dictTruthy parent.responses = true
    · simp [hbt]
    · have hemp : parent.responses = [] :=
        (dictTruthy_false_iff _).mp (by simpa using hbt)
      simp [hbt, hemp]

/-- C4 witness: the theorem applied to the fixture state, with
parent responses `{a: 1, b: 2}` and follow-up responses `{b: 3, c: 4}`;
the exact merged dict `{a: 1, b: 3, c: 4}` is also evaluated. -/
theorem submit_followup_child_precedence_witness :
    dictGet demoState.sessions "F-1" = some childSession
    ∧ childSession.is_followup = true
    ∧ childSession.parent_session_id = some "P-1"
    ∧ strTruthy "P-1" = true
    ∧ dictGet demoState.sessions "P-1" = some parentSession
    ∧ (dictKeys [("b", PyVal.int 3), ("c", PyVal.int 4)]).Nodup
    ∧ dictUpdate parentSession.responses [("b", PyVal.int 3), ("c", PyVal.int 4)]
        = [("a", PyVal.int 1), ("b", PyVal.int 3), ("c", PyVal.int 4)]
    ∧ ∃ r stOut,
        submit_followup_responses demoState "F-1"
            [("b", PyVal.int 3), ("c", PyVal.int 4)] nullReporter "T-2"
          = Except.ok (r, stOut)
        ∧ (dictGet stOut.sessions "F-1").isSome = true
        ∧ ∀ child, dictGet stOut.sessions "F-1" = some child →
            ∀ k, dictGet child.responses k
              = ((dictGet [("b", PyVal.int 3), ("c", PyVal.int 4)] k).or
                  (dictGet parentSession.responses k)) :=
  ⟨rfl, rfl, rfl, rfl, rfl, by decide, rfl,
    submit_followup_child_precedence demoState "F-1" "P-1"
      [("b", PyVal.int 3), ("c", PyVal.int 4)] nullReporter "T-2"
      childSession parentSession rfl rfl rfl rfl rfl (by decide)⟩

/-- C8: `submit_followup_responses` writes only the follow-up session's
entry; the parent session's stored record (hence every one of its fields,
its response map included) is exactly what it was before the call. -/
theorem submit_followup_parent_untouched
    (st : CoordState) (fid pid : String) (responses : PyDict PyVal)
    (reporter : ReporterBackend) (now : String)
    (fs parent : QuestionnaireSession)
    (hfs : dictGet st.sessions fid = some fs)
    (hif : fs.is_followup = true)
    (hpid : fs.parent_session_id = some pid)
    (hpt : strTruthy pid = true)
    (hparent : dictGet st.sessions pid = some parent)
    (hne : pid ≠ fid) :
    ∃ r stOut,
      submit_followup_responses st fid responses reporter now
        = Except.ok (r, stOut)
      ∧ dictGet stOut.sessions pid = some parent := by
  unfold submit_followup_responses
  have hcond : (!fs.is_followup || !optStrTruthy (some pid)) = false := by
    simp [hif, optStrTruthy, hpt]
  simp only [hfs, hpid, hcond, Bool.false_eq_true, if_false, Option.getD_some,
    hparent]
  refine ⟨_, _, rfl, ?_⟩
  rw [dictGet_dictInsert, if_neg hne, dictGet_dictInsert, if_neg hne]
  exact hparent

/-- C8 witness: the theorem applied to the fixture state; the parent's
stored record after the call is the unchanged `parentSession`. -/
theorem submit_followup_parent_untouched_witness :
    dictGet demoState.sessions "F-1" = some childSession
    ∧ ("P-1" : String) ≠ "F-1"
    ∧ ∃ r stOut,
        submit_followup_responses demoState "F-1"
            [("b", PyVal.int 3), ("c", PyVal.int 4)] nullReporter "T-2"
          = Except.ok (r, stOut)
        ∧ dictGet stOut.sessions "P-1" = some parentSession :=
  ⟨rfl, by decide,
    submit_followup_parent_untouched demoState "F-1" "P-1"
      [("b", PyVal.int 3), ("c", PyVal.int 4)] nullReporter "T-2"
      childSession parentSession rfl rfl rfl rfl rfl (by decide)⟩

/-- C10: for every registered session without an assessment, `answer_query`
returns exactly the fixed not-yet-generated message and the unchanged
coordinator state, for **every** query back-end — so the report-generation
back-end is never consulted and no session is modified. -/
theorem answer_query_no_assessment
    (st : CoordState) (session_id question : String) (backend : QueryBackend)
    (session : QuestionnaireSession)
    (hfound : dictGet st.sessions session_id = some session)
    (hnone : session.ecdd_assessment = none) :
    answer_query st session_id question backend
      = Except.ok
          ("Assessment has not been generated yet. Please complete the questionnaire first.",
           st) := by
  unfold answer_query
  simp only [hfound, hnone]

/-- C10 witness: the theorem applied to a store holding one assessment-less
session, under an arbitrary concrete back-end. -/
theorem answer_query_no_assessment_witness :
    dictGet [("P-1", { parentSession with ecdd_assessment := none })] "P-1"
        = some { parentSession with ecdd_assessment := none }
    ∧ answer_query { sessions := [("P-1", { parentSession with ecdd_assessment := none })] }
        "P-1" "What is the PEP status?" nullQueryBackend
      = Except.ok
          ("Assessment has not been generated yet. Please complete the questionnaire first.",
           { sessions := [("P-1", { parentSession with ecdd_assessment := none })] }) :=
  ⟨rfl,
    answer_query_no_assessment
      { sessions := [("P-1", { parentSession with ecdd_assessment := none })] }
      "P-1" "What is the PEP status?" nullQueryBackend
      { parentSession with ecdd_assessment := none } rfl rfl⟩

/-! ## C7 — swap symmetry of the assessment comparison -/
/-- C7: over the fixed `ComplianceFlags` field set, the flag diff of
`compare_assessments` is symmetric under swapping the two assessments: the
new concerns of `compare(A, B)` are exactly the resolved concerns of
`compare(B, A)`, as equal lists. -/
theorem compare_assessments_swap (A B : ECDDAssessment) :
    (compare_assessments A B).new_concerns
      = (compare_assessments B A).resolved_concerns := by
  show (compareFlagLists A.compliance_flags B.compliance_flags).1
      = (compareFlagLists B.compliance_flags A.compliance_flags).2
  rw [compareFlagLists_eq_flagLoop, compareFlagLists_eq_flagLoop,
    flagPairs_swap A.compliance_flags B.compliance_flags]
  rw [show (([], []) : List String × List String)
      = ((([], []) : List String × List String).2,
         (([], []) : List String × List String).1) from rfl]
  rw [flagLoop_swapped]

/-- C2 counterexample: with a profile-recorded PEP hit, a remote answer
asserting `sanctions = true` and `pep = false` passes the
`any([pep, sanctions])` guard, so the back-fill is skipped and the final
assessment keeps `pep = false` — refuting "flags.pep == true regardless of
what the remote service asserted". -/
theorem pep_backfill_skipped_when_sanctions_asserted :
    profileHasPepHit pepProfile = true
    ∧ (remoteParsedFlags sanctionsOnlyResponse).pep = false
    ∧ (remoteParsedFlags sanctionsOnlyResponse).sanctions = true
    ∧ (generate_assessment pepProfile
        (RemoteTextOutcome.returned (some sanctionsOnlyResponse))).1.compliance_flags.pep
      = false := by
  exact ⟨rfl, rfl, rfl, rfl⟩

/-- C2 amended: the back-fill applies only when the parsed remote flags
assert neither `pep` nor `sanctions`; in that case (which covers a remote
assessment asserting all flags false) a profile-recorded PEP hit forces
`flags.pep = true`, and otherwise the parsed `pep` value stands regardless
of the profile. -/
theorem parse_assessment_pep_flag (resp : AssessmentResponse)
    (profile : ClientProfile) :
    (_parse_assessment_response resp profile).1.compliance_flags.pep
      = (if (remoteParsedFlags resp).pep || (remoteParsedFlags resp).sanctions
         then (remoteParsedFlags resp).pep
         else profileHasPepHit profile) := by
  rw [parse_flags_eq_backfill, backfillFlags_pep]

/-! ## C5 — JSON recovery on unmatchable text -/
/-- C5 counterexample: `safe_json_from_llm` on text containing no `{`
raises `ValueError("No valid JSON found")` instead of reporting absence —
refuting "the extractor does not raise" for this cited recovery path (the
decoder is irrelevant: it is never reached). -/
theorem safe_json_raises_on_no_object :
    safe_json_from_llm (fun _ => (none : Option Unit))
        "The model did not return data."
      = Except.error "No valid JSON found" := by
  rfl

/-- C5 amended: on input in which no matching object can be found, the two
cited recovery paths differ — `safe_json_from_llm` raises
`ValueError("No valid JSON found")` whenever the cleaned text has no
decodable `{`-suffix (in particular on text with no `{` at all), while
`_parse_assessment_response` never raises and reports absence through
default-valued objects (the default assessment, back-filled from the
profile, and the default checklist). -/
theorem json_recovery_absence {α : Type} (decoder : String → Option α)
    (profile : ClientProfile) (raw : String) :
    (('{' ∈ cleanFences raw → False) →
        safe_json_from_llm decoder raw = Except.error "No valid JSON found")
    ∧ _parse_assessment_response { raw := raw } profile
        = ({ report_text := raw
             compliance_flags := backfillFlags {} profile },
           { checklist_text := raw }) := by
  constructor
  · intro hnb
    unfold safe_json_from_llm
    have : ∀ l : List Char, (('{' ∈ l → False)) →
        jsonScan decoder l = Except.error "No valid JSON found" := by
      intro l
      induction l with
      | nil => intro _; rfl
      | cons c rest ih =>
        intro hl
        have hc : ¬c = '{' := fun hc => hl (by rw [hc]; exact List.mem_cons_self _ _)
        rw [jsonScan, if_neg hc]
        exact ih (fun hm => hl (List.mem_cons_of_mem _ hm))
    exact this _ hnb
  · rfl

/-- C5 witness: the amended theorem applied to brace-free text and an
empty-screening profile. -/
theorem json_recovery_absence_witness :
    (('{' ∈ cleanFences "No payload returned." → False)
      ∧ safe_json_from_llm (fun _ => (none : Option Unit)) "No payload returned."
          = Except.error "No valid JSON found")
    ∧ _parse_assessment_response { raw := "No payload returned." } demoProfile
        = ({ report_text := "No payload returned."
             compliance_flags := backfillFlags {} demoProfile },
           { checklist_text := "No payload returned." }) :=
  ⟨⟨by decide,
    (json_recovery_absence (fun _ => (none : Option Unit)) demoProfile
      "No payload returned.").1 (by decide)⟩,
   (json_recovery_absence (fun _ => (none : Option Unit)) demoProfile
      "No payload returned.").2⟩

/-- C6 counterexample: the fallback checklist contains **two** identity
documents (photo ID and proof of address), not exactly one; and a profile
with neither a PEP hit nor a sanctions hit but with adverse news is rated
`high`, not `medium`. -/
theorem fallback_assessment_checklist_counts :
    (_generate_fallback_assessment demoProfile).2.identity_documents.length = 2
    ∧ ((_generate_fallback_assessment demoProfile).2.identity_documents.length = 1 → False)
    ∧ profileHasPepHit adverseOnlyProfile = false
    ∧ adverseOnlyProfile.sanctions = []
    ∧ (_generate_fallback_assessment adverseOnlyProfile).1.overall_risk_rating
        = RiskLevel.high := by
  exact ⟨rfl, by decide, rfl, rfl, rfl⟩

/-- C6 amended: for every profile, the fallback assessment is rated
`critical` on any sanctions hit, else `high` on a PEP hit, else `high` on
any adverse-news item, else `medium`; it carries one risk factor per
triggering condition with the fixed justification templates; and the
fallback checklist always holds exactly two identity documents, one
source-of-wealth document and one source-of-funds document, all with
priority `required`. -/
theorem fallback_assessment_shape (profile : ClientProfile) :
    (_generate_fallback_assessment profile).1.overall_risk_rating
      = (if !(List.isEmpty profile.sanctions) then RiskLevel.critical
         else if profileHasPepHit profile then RiskLevel.high
         else if !(List.isEmpty profile.adverse_news) then RiskLevel.high
         else RiskLevel.medium)
    ∧ (_generate_fallback_assessment profile).1.risk_factors
      = ((if profileHasPepHit profile then
            [{ factor_name := "PEP Status"
               level := RiskLevel.high
               score := 4/5
               justification := "Client identified as Politically Exposed Person" }]
          else [])
        ++ (if !(List.isEmpty profile.sanctions) then
            [{ factor_name := "Sanctions Screening"
               level := RiskLevel.critical
               score := 19/20
               justification := "Sanctions screening returned " ++
                 toString profile.sanctions.length ++ " hit(s)" }]
          else [])
        ++ (if !(List.isEmpty profile.adverse_news) then
            [{ factor_name := "Adverse Media"
               level := RiskLevel.high
               score := 7/10
               justification := "Adverse news screening found " ++
                 toString profile.adverse_news.length ++ " item(s)" }]
          else []))
    ∧ (_generate_fallback_assessment profile).2
      = { identity_documents :=
            [{ document_name := "Government-issued photo ID"
               priority := DocumentPriority.required
               category := "identity" },
             { document_name := "Proof of address (utility bill, bank statement)"
               priority := DocumentPriority.required
               category := "identity" }]
          source_of_wealth_documents :=
            [{ document_name := "Evidence of source of wealth"
               priority := DocumentPriority.required
               category := "sow" }]
          source_of_funds_documents :=
            [{ document_name := "Bank statements (3 months)"
               priority := DocumentPriority.required
               category := "sof" }]
          checklist_text := "Standard document checklist - customize based on client profile." } := by
  by_cases hp : profileHasPepHit profile = true <;>
    by_cases hs : List.isEmpty profile.sanctions = true <;>
      by_cases ha : List.isEmpty profile.adverse_news = true <;>
        simp [_generate_fallback_assessment, hp, hs, ha]

/-- C3: whenever the question-generation back-end fails (remote error,
timeout, empty or unparsable output), `generate_questionnaire` still
returns — it cannot raise, its result type is plain — a questionnaire with
exactly 3 sections, each containing at least one question whose `required`
flag is true. -/
theorem generate_questionnaire_total_outage
    (client_profile : ClientProfile) (outcome : QGenOutcome)
    (qid uuid : String) (sfresh : ℕ → String) (qfresh : ℕ → ℕ → String)
    (now : String)
    (hfail : failingOutcome outcome = true) :
    (generate_questionnaire client_profile outcome qid uuid sfresh qfresh now).sections.length = 3
    ∧ ∀ s ∈ (generate_questionnaire client_profile outcome qid uuid sfresh qfresh now).sections,
        ∃ q ∈ s.questions, q.required = true := by
  cases outcome with
  | raised =>
    exact fallback_questionnaire_shape client_profile false uuid now
  | returned t =>
    cases t with
    | none => exact fallback_questionnaire_shape client_profile false uuid now
    | some resp =>
      by_cases hraw : strTruthy resp.raw = true
      · have hdec : resp.decoded = none := by
          simp only [failingOutcome, hraw, Bool.not_true, Bool.false_or,
            Option.isNone_iff_eq_none] at hfail
          exact hfail
        unfold generate_questionnaire _parse_questionnaire_response
        simp only [hraw, Bool.not_true, Bool.false_eq_true, if_false, hdec]
        exact fallback_questionnaire_shape _ false uuid now
      · have hraw2 : strTruthy resp.raw = false := by
          cases h : strTruthy resp.raw
          · rfl
          · exact absurd h hraw
        unfold generate_questionnaire
        simp only [hraw2, Bool.not_false, if_true]
        exact fallback_questionnaire_shape client_profile false uuid now

/-- C3 witness: the theorem applied to an always-failing back-end
(`OperationFailed` surfaces as `_process_run` returning `None`). -/
theorem generate_questionnaire_total_outage_witness :
    failingOutcome (QGenOutcome.returned none) = true
    ∧ (generate_questionnaire demoProfile (QGenOutcome.returned none)
          "Q-1" "U-1" (fun _ => "SID") (fun _ _ => "FID") "T-3").sections.length = 3
    ∧ ∀ s ∈ (generate_questionnaire demoProfile (QGenOutcome.returned none)
          "Q-1" "U-1" (fun _ => "SID") (fun _ _ => "FID") "T-3").sections,
        ∃ q ∈ s.questions, q.required = true :=
  ⟨rfl,
    (generate_questionnaire_total_outage demoProfile (QGenOutcome.returned none)
      "Q-1" "U-1" (fun _ => "SID") (fun _ _ => "FID") "T-3" rfl).1,
    (generate_questionnaire_total_outage demoProfile (QGenOutcome.returned none)
      "Q-1" "U-1" (fun _ => "SID") (fun _ _ => "FID") "T-3" rfl).2⟩

/-! ## C9 — the poll loop contract -/
/-- C9: for every scripted status sequence, the poll loop (entered with
delay `0.5`) terminates; every trace's sleep durations follow the schedule
`0.5, min(0.5·1.5, 5), min(…·1.5, 5), …` (so the first re-poll is preceded
by a `0.5` sleep and the interval is multiplied by `1.5` after every poll,
capped at `5`); a timed-out run slept past the `120` cap, performed exactly
one poll fewer than its sleeps — no poll follows the timeout return — and
ends in the distinct `timedOut` exit (reported as the "Run timed out" log
and `None`, with no automatic retry); and a script that never reaches a
terminal state always ends in that timeout exit. -/
theorem process_run_poll_contract (script : ℕ → String) (s0 : String) :
    (pollLoop script s0).isSome = true
    ∧ (∀ e sleeps polls, pollLoop script s0 = some (e, sleeps, polls) →
        sleeps = List.map delaySchedule (List.range sleeps.length)
        ∧ (e = PollExit.timedOut →
            polls + 1 = sleeps.length ∧ (120 : ℚ) < sleeps.sum)
        ∧ (e ≠ PollExit.timedOut → polls = sleeps.length))
    ∧ ((nonTerminalStatus s0 = true ∧
          ∀ i, nonTerminalStatus (script i) = true) →
        ∃ sleeps polls,
          pollLoop script s0 = some (PollExit.timedOut, sleeps, polls)) := by
  have hsome : (pollLoop script s0).isSome = true := by
    apply pollLoopAux_isSome
    · norm_num
    · norm_num
    · norm_num
  refine ⟨hsome, ?_, ?_⟩
  · intro e sleeps polls h
    obtain ⟨hs, hto, hnto, hsum⟩ := pollLoopAux_trace _ _ _ _ _ _ _ _ _ h
    refine ⟨?_, ?_, hnto⟩
    · conv_lhs => rw [hs]
      rw [show (1/2 : ℚ) = delaySchedule 0 from rfl,
        delayList_delaySchedule 0 sleeps.length]
      simp only [Nat.zero_add]
    · intro h1
      refine ⟨hto h1, ?_⟩
      have := hsum h1
      linarith
  · intro ⟨h0, hall⟩
    obtain ⟨r, hr⟩ := Option.isSome_iff_exists.mp hsome
    obtain ⟨e, sleeps, polls⟩ := r
    have he : e = PollExit.timedOut :=
      pollLoopAux_timeout_of_nonterminal _ _ _ _ _ _ _ _ _ h0 hall hr
    exact ⟨sleeps, polls, by rw [← he]; exact hr⟩

/-- C9 witness: the contract applied to a run whose initial status is
already terminal (its exact trace evaluated: no sleep, no poll) and to a
script that never leaves `in_progress` (the timeout exit obtained from the
contract). -/
theorem process_run_poll_contract_witness :
    (pollLoop (fun _ => "queued") "completed"
        = some (PollExit.completed "completed", ([] : List ℚ), 0))
    ∧ (([] : List ℚ) = List.map delaySchedule (List.range ([] : List ℚ).length)
       ∧ (PollExit.completed "completed" = PollExit.timedOut →
            0 + 1 = ([] : List ℚ).length ∧ (120 : ℚ) < ([] : List ℚ).sum)
       ∧ (PollExit.completed "completed" ≠ PollExit.timedOut →
            0 = ([] : List ℚ).length))
    ∧ (nonTerminalStatus "queued" = true
       ∧ ∀ i : ℕ, nonTerminalStatus ((fun _ => "in_progress") i) = true)
    ∧ ∃ sleeps polls, pollLoop (fun _ => "in_progress") "queued"
        = some (PollExit.timedOut, sleeps, polls) :=
  ⟨by decide,
   (process_run_poll_contract (fun _ => "queued") "completed").2.1 _ _ _
     (by decide),
   ⟨by decide, fun _ => by show nonTerminalStatus "in_progress" = true; decide⟩,
   (process_run_poll_contract (fun _ => "in_progress") "queued").2.2
     ⟨by decide, fun _ => by show nonTerminalStatus "in_progress" = true; decide⟩⟩
